import Mathlib

/-!
# OpenPyPony storage core — shallow embedding and verification

This file embeds the storage core of the OpenPyPony repository in Lean 4 and
proves (or refutes) the frozen claims about it.

Embedded components, each translated from the C/C++ source:

* `src/copilot/src/binary_logger.c` — block builder (`block_add_accel`,
  `block_add_gps`), the session-level operations (`opl_start_session`,
  `opl_write_accel`, `opl_write_gps`, `opl_check_flush`, `opl_stop_session`,
  `opl_add_hardware_item`, the two configuration setters), and a small-step
  trace semantics over those operations.
* `src/copilot/src/ring_buffer.c` — the bounded sample queue.
* `src/esp32-s3/src/logger.cpp` — `FlashLogger` (`startSession`,
  `stopSession`, `flush`, `cleanupOldSessions`, `listSessions`,
  `getUsagePercent`).

Modelling conventions:

* C `float`/`double` values are modelled as `ℚ` (exact arithmetic).  The one
  float comparison whose rounding the source bakes into an integer constant,
  `(int)(MAX_DATA_PAYLOAD * 0.9f)`, is evaluated once and for all to the
  integer `3614` that the C expression produces (`0.9f` is
  `15099494/2^24 ≈ 0.89999997615814`, `4016 * 0.9f ≈ 3614.3999`, truncation
  gives `3614`).
* The opaque IEEE-754 byte images that the block builder copies out of
  `float`/`double` values are modelled by the `PByte` payload-byte type: a
  payload byte is either a concretely computed byte (`PByte.raw`) or the
  `i`-th byte of the IEEE encoding of a value (`PByte.f32` / `PByte.f64`),
  kept opaque because no claim inspects the numeric encoding itself.
* Machine integers are `ℕ` with explicit `% 2^w` at the points where the
  source can actually wrap (the `uint64` timestamp subtraction, the `uint32`
  truncation of the millisecond offset, the `uint16` sample counter, the
  `uint32` drop counter).
* The FatFS / SPIFFS storage collaborator is modelled as in-memory file
  contents; file-system success/failure of `f_open`/header writes are
  explicit `Bool` inputs.  `time_us_64()` is an explicit `ℕ` input per call
  (the source may read the clock more than once inside one call; those reads
  are microseconds apart and are modelled as a single value).
-/

set_option linter.unusedVariables false
set_option maxRecDepth 100000

namespace OpenPyPony

/-! ## Constants from binary_logger.c / binary_logger.h -/

def OPL_MAX_BLOCK_SIZE : ℕ := 4096
def OPL_MAX_DATA_PAYLOAD : ℕ := OPL_MAX_BLOCK_SIZE - 80

def FLUSH_FLAG_TIME : ℕ := 0x01
def FLUSH_FLAG_SIZE : ℕ := 0x02
def FLUSH_FLAG_EVENT : ℕ := 0x04

/-- `(int)(MAX_DATA_PAYLOAD * 0.9f)` evaluated: `0.9f = 15099494 / 2^24`,
`4016 * 0.9f` rounds to a float32 slightly below `3614.4`, truncation to
`int` gives `3614`. -/
def SIZE_TRIGGER : ℕ := 3614

def FLUSH_TIME_THRESHOLD_SECS : ℚ := 300

def SAMPLE_TYPE_ACCELEROMETER : ℕ := 0x01
def SAMPLE_TYPE_GPS_FIX : ℕ := 0x02

def MAX_HW_ITEMS : ℕ := 32
def MAX_HW_ID_LEN : ℕ := 31

/-! ## Kernel-computable rational arithmetic

`Rat.add`/`sub`/`mul`/`div` are irreducible to the kernel; the logger's
float/double arithmetic is therefore modelled through these `mkRat`-based
primitives, each provably equal to the corresponding field operation
(`qadd_eq` etc. below), so that concrete traces evaluate by `decide`. -/

def qadd (a b : ℚ) : ℚ := mkRat (a.num * b.den + b.num * a.den) (a.den * b.den)

def qsub (a b : ℚ) : ℚ := mkRat (a.num * b.den - b.num * a.den) (a.den * b.den)

def qmul (a b : ℚ) : ℚ := mkRat (a.num * b.num) (a.den * b.den)

/-- `(double) t / 1e6`: microseconds to seconds. -/
def usToSec (us : ℕ) : ℚ := mkRat us 1000000

/-! ## Payload bytes

A byte inside a block payload: either a byte the C code computes concretely
(record headers), or the `i`-th byte of the IEEE-754 image of a
`float`/`double` value, which we keep opaque. -/

inductive PByte where
  | raw : ℕ → PByte
  | f32 : ℚ → ℕ → PByte
  | f64 : ℚ → ℕ → PByte
deriving DecidableEq

/-! ## Block builder (`opl_block_t`, `block_reset`, `block_add_*`) -/

structure OplBlock where
  payload : List PByte
  data_size : ℕ        -- uint16
  sample_count : ℕ     -- uint16
  flush_flags : ℕ      -- uint8 bitmask
  ts_start : ℕ         -- uint64 microseconds
  ts_end : ℕ           -- uint64 microseconds
  block_sequence : ℕ   -- uint32
  session_id : ℕ × ℕ   -- 16 bytes, stored as the two uint64 halves copied in
deriving DecidableEq

/-- `block_reset`: `memset(b, 0, sizeof(*b))` — note that this zeroes
`block_sequence` and `session_id` as well (callers re-copy the session id
afterwards, but not the sequence number). -/
def block_reset : OplBlock :=
  { payload := [], data_size := 0, sample_count := 0, flush_flags := 0,
    ts_start := 0, ts_end := 0, block_sequence := 0, session_id := (0, 0) }

/-- `(uint32_t)((ts_us - ts_start) / 1000)` over `uint64`, then clamped to
`0xFFFF`.  The subtraction wraps modulo `2^64` when `ts_us < ts_start`. -/
def offsetMs (ts_us ts_start : ℕ) : ℕ :=
  min ((((2 ^ 64 + ts_us - ts_start) % 2 ^ 64) / 1000) % 2 ^ 32) 0xFFFF

/-- The 16 payload bytes appended by `block_add_accel`: 4-byte record header
(type tag, offset low byte, offset high byte, length 12) followed by the
three little-endian float32 images. -/
def accelRecordBytes (offset : ℕ) (gx gy gz : ℚ) : List PByte :=
  [PByte.raw SAMPLE_TYPE_ACCELEROMETER,
   PByte.raw (offset % 256), PByte.raw (offset / 256 % 256),
   PByte.raw 12]
  ++ (List.range 4).map (PByte.f32 gx)
  ++ (List.range 4).map (PByte.f32 gy)
  ++ (List.range 4).map (PByte.f32 gz)

/-- The 36 payload bytes appended by `block_add_gps`: 4-byte record header
(type tag, offset low byte, offset high byte, length 32) followed by two
little-endian float64 images and four float32 images. -/
def gpsRecordBytes (offset : ℕ) (lat lon alt speed heading hdop : ℚ) : List PByte :=
  [PByte.raw SAMPLE_TYPE_GPS_FIX,
   PByte.raw (offset % 256), PByte.raw (offset / 256 % 256),
   PByte.raw 32]
  ++ (List.range 8).map (PByte.f64 lat)
  ++ (List.range 8).map (PByte.f64 lon)
  ++ (List.range 4).map (PByte.f32 alt)
  ++ (List.range 4).map (PByte.f32 speed)
  ++ (List.range 4).map (PByte.f32 heading)
  ++ (List.range 4).map (PByte.f32 hdop)

/-- `block_add_accel`.  Mirrors the C statement order: the start/end
timestamps are updated *before* the capacity check, so a failing append
still mutates them (the returned block is the in-place state of
`*b` after the call). -/
def block_add_accel (b : OplBlock) (ts_us : ℕ) (gx gy gz : ℚ) : Bool × OplBlock :=
  let b1 : OplBlock :=
    { b with ts_start := if b.ts_start = 0 then ts_us else b.ts_start, ts_end := ts_us }
  let off := offsetMs ts_us b1.ts_start
  if OPL_MAX_DATA_PAYLOAD < b1.data_size + 4 + 12 then (false, b1)
  else
    (true, { b1 with payload := b1.payload ++ accelRecordBytes off gx gy gz,
                     data_size := b1.data_size + 4 + 12,
                     sample_count := (b1.sample_count + 1) % 2 ^ 16 })

/-- `block_add_gps`; same structure as `block_add_accel` with a 32-byte
sample payload. -/
def block_add_gps (b : OplBlock) (ts_us : ℕ) (lat lon alt speed heading hdop : ℚ) :
    Bool × OplBlock :=
  let b1 : OplBlock :=
    { b with ts_start := if b.ts_start = 0 then ts_us else b.ts_start, ts_end := ts_us }
  let off := offsetMs ts_us b1.ts_start
  if OPL_MAX_DATA_PAYLOAD < b1.data_size + 4 + 32 then (false, b1)
  else
    (true, { b1 with payload := b1.payload ++ gpsRecordBytes off lat lon alt speed heading hdop,
                     data_size := b1.data_size + 4 + 32,
                     sample_count := (b1.sample_count + 1) % 2 ^ 16 })

/-! ## Logger state (the file-scope globals of binary_logger.c) -/

structure HwItem where
  hw_type : ℕ
  conn_type : ℕ
  identifier : String   -- truncated to MAX_HW_ID_LEN characters on insertion
deriving DecidableEq

/-- One record of the session file, at the granularity the write helpers emit
them (`write_session_header_fatfs`, `write_hardware_block_fatfs`,
`write_block_to_file_fatfs`, the end-marker write in `opl_stop_session`).
The byte serialisation below each record is deterministic in these fields, so
record-list equality models file-content equality. -/
inductive OplRecord where
  | sessionHeader (write_ts_us : ℕ) (sid : ℕ × ℕ)
      (session_name driver_name vehicle_id : String)
      (weather : ℤ) (ambient_temp : ℚ) (config_crc : ℕ)
  | hardwareConfig (items : List HwItem)
  | dataBlock (b : OplBlock)
  | sessionEnd (sid : ℕ × ℕ)
deriving DecidableEq

structure OplState where
  logger_active : Bool
  file_open : Bool
  current_filename : String
  /-- Contents of the currently open (or most recently closed) session file. -/
  file : List OplRecord
  /-- Observation history: every data block ever handed to
  `write_block_to_file_fatfs` with a non-zero sample count, across all
  sessions of the run.  (`file` is truncated when a new session re-opens;
  this field is never truncated.) -/
  committed_blocks : List OplBlock
  current_block : OplBlock
  current_session : ℕ × ℕ
  last_flush_time : ℚ          -- seconds, time_us_64()/1e6
  last_event_flush_time : ℚ    -- seconds
  gforce_threshold : ℚ
  event_rate_limit_s : ℚ
  hw_items : List HwItem
deriving DecidableEq

/-- Initial values of the file-scope globals. -/
def oplInit : OplState :=
  { logger_active := false, file_open := false, current_filename := "",
    file := [], committed_blocks := [], current_block := block_reset,
    current_session := (0, 0), last_flush_time := 0, last_event_flush_time := 0,
    gforce_threshold := 3, event_rate_limit_s := 1, hw_items := [] }

/-- `write_block_to_file_fatfs`: a block with zero samples writes nothing;
otherwise the serialised block is appended to the file (storage writes are
modelled as succeeding). -/
def write_block_to_file (st : OplState) (b : OplBlock) : OplState :=
  if b.sample_count = 0 then st
  else { st with file := st.file ++ [OplRecord.dataBlock b],
                 committed_blocks := st.committed_blocks ++ [b] }

/-- The fresh block installed after every commit: `block_reset` (which zeroes
`block_sequence`, discarding the increment the callers perform just before)
followed by re-copying the session id. -/
def freshBlock (sid : ℕ × ℕ) : OplBlock :=
  { block_reset with session_id := sid }

/-- `sqrtf(gx*gx+gy*gy+gz*gz) >= gforce_threshold`, modelled exactly over the
reals: for `thr ≤ 0` the square root (always nonnegative) meets the
threshold; for `thr > 0` the comparison is equivalent to comparing squares. -/
def gmagEvent (gx gy gz thr : ℚ) : Bool :=
  if thr ≤ 0 then true
  else qmul thr thr ≤ qadd (qadd (qmul gx gx) (qmul gy gy)) (qmul gz gz)

/-- The event/size flush checks `opl_write_accel` runs after a successful
append (`st1` is the logger state with the sample already appended; its
configuration, session and event-time fields are those of the pre-call
state). -/
def accel_flush_checks (st1 : OplState) (gx gy gz : ℚ) (now_us : ℕ) : Bool × OplState :=
  let nowSec : ℚ := usToSec now_us
  if gmagEvent gx gy gz st1.gforce_threshold then
    if st1.event_rate_limit_s ≤ qsub nowSec st1.last_event_flush_time then
      let b := { st1.current_block with
                   flush_flags := st1.current_block.flush_flags ||| FLUSH_FLAG_EVENT }
      let st2 := write_block_to_file { st1 with current_block := b } b
      (true, { st2 with current_block := freshBlock st1.current_session,
                        last_flush_time := nowSec,
                        last_event_flush_time := nowSec })
    else (true, st1)   -- rate-limited: sample stays in the block, no flush
  else if SIZE_TRIGGER ≤ st1.current_block.data_size then
    let b := { st1.current_block with
                 flush_flags := st1.current_block.flush_flags ||| FLUSH_FLAG_SIZE }
    let st2 := write_block_to_file { st1 with current_block := b } b
    (true, { st2 with current_block := freshBlock st1.current_session,
                      last_flush_time := nowSec })
  else (true, st1)

/-- `opl_write_accel`.  `now_us` models `time_us_64()`.  On a failed append
the (timestamp-mutated) block is committed, `block_sequence` is incremented
and then wiped by `block_reset`, and the append is retried once on the fresh
block. -/
def opl_write_accel (st : OplState) (gx gy gz : ℚ) (timestamp_us now_us : ℕ) :
    Bool × OplState :=
  if st.logger_active then
    let ts := if timestamp_us = 0 then now_us else timestamp_us
    let r1 := block_add_accel st.current_block ts gx gy gz
    if r1.1 then accel_flush_checks { st with current_block := r1.2 } gx gy gz now_us
    else
      let stc := { write_block_to_file st r1.2 with
                     current_block := freshBlock st.current_session }
      let r2 := block_add_accel (freshBlock st.current_session) ts gx gy gz
      if r2.1 then accel_flush_checks { stc with current_block := r2.2 } gx gy gz now_us
      else (false, { stc with current_block := r2.2 })
  else (false, st)

/-- `opl_write_gps`: append with the same overflow-retry shape; no event or
size trigger is evaluated after a GPS append. -/
def opl_write_gps (st : OplState) (lat lon alt speed heading hdop : ℚ)
    (timestamp_us now_us : ℕ) : Bool × OplState :=
  if st.logger_active then
    let ts := if timestamp_us = 0 then now_us else timestamp_us
    let r1 := block_add_gps st.current_block ts lat lon alt speed heading hdop
    if r1.1 then (true, { st with current_block := r1.2 })
    else
      let stc := { write_block_to_file st r1.2 with
                     current_block := freshBlock st.current_session }
      let r2 := block_add_gps (freshBlock st.current_session) ts lat lon alt speed heading hdop
      if r2.1 then (true, { stc with current_block := r2.2 })
      else (false, { stc with current_block := r2.2 })
  else (false, st)

/-- `opl_check_flush`: the periodic time trigger. -/
def opl_check_flush (st : OplState) (now_us : ℕ) : OplState :=
  if st.logger_active then
    let nowSec : ℚ := usToSec now_us
    if FLUSH_TIME_THRESHOLD_SECS ≤ qsub nowSec st.last_flush_time then
      let b := { st.current_block with
                   flush_flags := st.current_block.flush_flags ||| FLUSH_FLAG_TIME }
      let st2 := write_block_to_file { st with current_block := b } b
      { st2 with current_block := freshBlock st.current_session, last_flush_time := nowSec }
    else st
  else st

/-- `opl_stop_session`: flush a non-empty block, write the end marker, close
the file, clear the hardware items, go inactive.  No-op when inactive. -/
def opl_stop_session (st : OplState) : OplState :=
  if st.logger_active then
    let st1 := if 0 < st.current_block.sample_count
               then write_block_to_file st st.current_block else st
    { st1 with file := st1.file ++ [OplRecord.sessionEnd st.current_session],
               file_open := false, logger_active := false, hw_items := [] }
  else st

/-- `opl_add_hardware_item`: fails once `MAX_HW_ITEMS` entries exist;
truncates the identifier to `MAX_HW_ID_LEN` characters. -/
def opl_add_hardware_item (st : OplState) (hw_type conn_type : ℕ) (identifier : String) :
    Bool × OplState :=
  if MAX_HW_ITEMS ≤ st.hw_items.length then (false, st)
  else (true, { st with hw_items :=
                  st.hw_items ++ [⟨hw_type, conn_type, identifier.take MAX_HW_ID_LEN⟩] })

/-- `snprintf("session_%05d.opl")` zero-padding. -/
def pad5 (n : ℕ) : String :=
  let s := toString n
  String.mk (List.replicate (5 - s.length) '0') ++ s

/-- `opl_start_session`.  `dir_scan` models the result of
`get_next_session_number_fatfs` (`none` = directory scan unavailable),
`fopen_ok` the result of `f_open`, `header_ok` the result of the session
header write.  `now_us` models `time_us_64()`. -/
def opl_start_session (st : OplState)
    (base_path session_name driver_name vehicle_id : String)
    (weather : ℤ) (ambient_temp : ℚ) (config_crc : ℕ)
    (now_us : ℕ) (dir_scan : Option ℕ) (fopen_ok header_ok : Bool) :
    Bool × OplState :=
  let st := if st.logger_active then opl_stop_session st else st
  let fname := match dir_scan with
    | some n => base_path ++ "/session_" ++ pad5 n ++ ".opl"
    | none => base_path ++ "/session_" ++ toString now_us ++ ".opl"
  let st := { st with current_filename := fname }
  if fopen_ok then
    -- FA_CREATE_ALWAYS truncates: the new file starts empty
    let st := { st with file_open := true, file := [] }
    let sid : ℕ × ℕ := (now_us % 2 ^ 64, (now_us % 2 ^ 64) ^^^ 0xDEADBEEF12345678)
    let st := { st with current_session := sid, current_block := freshBlock sid }
    if header_ok then
      let st := { st with file :=
        st.file ++ [OplRecord.sessionHeader now_us sid session_name driver_name
                      vehicle_id weather ambient_temp config_crc] }
      let st := if 0 < st.hw_items.length
                then { st with file := st.file ++ [OplRecord.hardwareConfig st.hw_items] }
                else st
      (true, { st with last_flush_time := usToSec now_us,
                       last_event_flush_time := 0, logger_active := true })
    else (false, { st with file_open := false })
  else (false, st)

/-- `opl_set_gforce_threshold`: only strictly positive values are accepted. -/
def opl_set_gforce_threshold (st : OplState) (g : ℚ) : OplState :=
  if 0 < g then { st with gforce_threshold := g } else st

/-- `opl_set_event_rate_limit`: only nonnegative values are accepted. -/
def opl_set_event_rate_limit (st : OplState) (seconds : ℚ) : OplState :=
  if 0 ≤ seconds then { st with event_rate_limit_s := seconds } else st

/-! ## Trace semantics for the copilot logger

An operation is one public API call together with the environment inputs it
consumes (clock reads, directory-scan result, storage success flags).  A
reachable state is `oplRun ops` for some operation list; this over-approximates
the real executions (clocks need not be monotone), so a universal statement
over all traces covers every real execution. -/

inductive OplOp where
  | start (base_path session_name driver_name vehicle_id : String)
      (weather : ℤ) (ambient_temp : ℚ) (config_crc : ℕ)
      (now_us : ℕ) (dir_scan : Option ℕ) (fopen_ok header_ok : Bool)
  | writeAccel (gx gy gz : ℚ) (timestamp_us now_us : ℕ)
  | writeGps (lat lon alt speed heading hdop : ℚ) (timestamp_us now_us : ℕ)
  | checkFlush (now_us : ℕ)
  | stop
  | addHw (hw_type conn_type : ℕ) (identifier : String)
  | setGforce (g : ℚ)
  | setRateLimit (seconds : ℚ)

def oplStep (st : OplState) : OplOp → OplState
  | OplOp.start bp sn dn vid w t crc now scan fok hok =>
      (opl_start_session st bp sn dn vid w t crc now scan fok hok).2
  | OplOp.writeAccel gx gy gz ts now => (opl_write_accel st gx gy gz ts now).2
  | OplOp.writeGps lat lon alt speed heading hdop ts now =>
      (opl_write_gps st lat lon alt speed heading hdop ts now).2
  | OplOp.checkFlush now => opl_check_flush st now
  | OplOp.stop => opl_stop_session st
  | OplOp.addHw hw conn ident => (opl_add_hardware_item st hw conn ident).2
  | OplOp.setGforce g => opl_set_gforce_threshold st g
  | OplOp.setRateLimit s => opl_set_event_rate_limit st s

def oplRun (ops : List OplOp) : OplState := ops.foldl oplStep oplInit

/-! ## Ring buffer (`src/copilot/src/ring_buffer.c`) -/

def RING_BUFFER_CAPACITY : ℕ := 2048

structure sample_t where
  timestamp_us : ℕ   -- uint32
  ax : ℚ
  ay : ℚ
  az : ℚ
  g_total : ℚ
  lat : ℚ
  lon : ℚ
  speed : ℚ
  has_gps : Bool
deriving DecidableEq

def zeroSample : sample_t :=
  { timestamp_us := 0, ax := 0, ay := 0, az := 0, g_total := 0,
    lat := 0, lon := 0, speed := 0, has_gps := false }

structure RingBuffer where
  buffer : List sample_t   -- the fixed backing array, length RING_BUFFER_CAPACITY
  head : ℕ                 -- uint32, kept in [0, capacity) by next_index
  tail : ℕ
  drop_count : ℕ           -- uint32
deriving DecidableEq

def ring_buffer_init : RingBuffer :=
  { buffer := List.replicate RING_BUFFER_CAPACITY zeroSample,
    head := 0, tail := 0, drop_count := 0 }

def next_index (i : ℕ) : ℕ := (i + 1) % RING_BUFFER_CAPACITY

def ring_buffer_is_empty (rb : RingBuffer) : Bool := rb.head = rb.tail

def ring_buffer_is_full (rb : RingBuffer) : Bool := next_index rb.head = rb.tail

/-- `ring_buffer_push`: on a full queue the sample is dropped and the uint32
drop counter incremented; otherwise the sample is stored at `head` and `head`
advances. -/
def ring_buffer_push (rb : RingBuffer) (s : sample_t) : Bool × RingBuffer :=
  if ring_buffer_is_full rb then
    (false, { rb with drop_count := (rb.drop_count + 1) % 2 ^ 32 })
  else
    (true, { rb with buffer := rb.buffer.set rb.head s, head := next_index rb.head })

def ring_buffer_pop (rb : RingBuffer) : Option sample_t × RingBuffer :=
  if ring_buffer_is_empty rb then (none, rb)
  else (some (rb.buffer.getD rb.tail zeroSample), { rb with tail := next_index rb.tail })

/-! ## FlashLogger (`src/esp32-s3/src/logger.cpp`) -/

/-- `HIGH_WATER_MARK * 100.0f` / `LOW_WATER_MARK * 100.0f` as percentages.
(`0.90f`/`0.60f` are within `4e-6` of the exact values; the comparisons are
modelled with the exact percentages 90 and 60.) -/
def HIGH_WATER_MARK_PCT : ℚ := 90
def LOW_WATER_MARK_PCT : ℚ := 60

def FRAME_SIZE : ℕ := 64
def BUFFER_SIZE : ℕ := FRAME_SIZE * 16

structure SessionInfo where
  filename : String
  size_bytes : ℕ
  frame_count : ℕ
  created_time : ℕ    -- st_mtime
deriving DecidableEq

/-- A chunk of the current session file, at the granularity `flush` and the
header write emit them.  The LZ4 compressor is an external collaborator; a
successfully compressed block records its source bytes and (opaque)
compressed image length, a failed compression falls back to the
`0xFFFFFFFF`-marked uncompressed form. -/
inductive FlashChunk where
  | header
  | compressedBlock (uncompressed_size : ℕ) (src : List ℕ) (compressed_len : ℕ)
  | uncompressedBlock (src : List ℕ)
deriving DecidableEq

structure FlashState where
  logging_ : Bool
  file_open : Bool        -- `file_ != nullptr`
  current_session_ : String
  base_path_ : String
  file : List FlashChunk  -- contents of the currently open session file
  write_buffer_ : List ℕ
  buffer_pos_ : ℕ
  frame_count_ : ℕ
  bytes_written_ : ℕ
  /-- Directory snapshot of the `.opl` session files, consumed by
  `listSessions` / `cleanupOldSessions`. -/
  files : List SessionInfo
  total_bytes : ℕ         -- esp_spiffs_info total
  base_used : ℕ           -- used bytes not attributable to session files
deriving DecidableEq

def spiffsUsed (fs : FlashState) : ℕ :=
  fs.base_used + (fs.files.map SessionInfo.size_bytes).sum

/-- `getUsagePercent`: `used / total * 100`, `0` when `total = 0`. -/
def getUsagePercent (fs : FlashState) : ℚ :=
  if fs.total_bytes = 0 then 0
  else (spiffsUsed fs : ℚ) / (fs.total_bytes : ℚ) * 100

/-- `FlashLogger::flush`.  `lz4 = some (len)` models a successful
`LZ4_compress_default` returning `len > 0`; `none` models failure, which
falls back to the uncompressed write. -/
def flashFlush (fs : FlashState) (lz4 : Option ℕ) : FlashState :=
  if fs.file_open = false ∨ fs.buffer_pos_ = 0 then fs
  else
    match lz4 with
    | some len =>
        { fs with file := fs.file ++ [FlashChunk.compressedBlock fs.buffer_pos_
                                        (fs.write_buffer_.take fs.buffer_pos_) len],
                  bytes_written_ := fs.bytes_written_ + 8 + len,
                  buffer_pos_ := 0 }
    | none =>
        { fs with file := fs.file ++ [FlashChunk.uncompressedBlock
                                        (fs.write_buffer_.take fs.buffer_pos_)],
                  bytes_written_ := fs.bytes_written_ + 8 + fs.buffer_pos_,
                  buffer_pos_ := 0 }

/-- `FlashLogger::startSession`: refuses outright when already logging.
`session_name = none` models a null/empty name (the generated,
timestamp-derived name is the `gen_name` input); `fopen_ok`/`header_ok` model
`fopen` and the header `fwrite`. -/
def flashStartSession (fs : FlashState) (session_name : Option String)
    (gen_name : String) (fopen_ok header_ok : Bool) : Bool × FlashState :=
  if fs.logging_ then (false, fs)
  else
    let path := match session_name with
      | none => gen_name
      | some n => fs.base_path_ ++ "/" ++ n
    let fs := { fs with current_session_ := path }
    if fopen_ok then
      let fs := { fs with file_open := true, file := [] }
      if header_ok then
        (true, { fs with file := [FlashChunk.header], logging_ := true,
                         frame_count_ := 0, bytes_written_ := 4, buffer_pos_ := 0 })
      else (false, { fs with file_open := false })
    else (false, fs)

/-- `FlashLogger::stopSession`: no-op when not logging; otherwise flush the
buffer and close the file. -/
def flashStopSession (fs : FlashState) (lz4 : Option ℕ) : FlashState :=
  if fs.logging_ then
    let fs1 := flashFlush fs lz4
    { fs1 with file_open := false, logging_ := false }
  else fs

/-- `listSessions`: the `.opl` regular files of the storage directory with
their `stat` data (the `files` field is exactly that snapshot). -/
def listSessions (fs : FlashState) : List SessionInfo := fs.files

/-- `std::sort` ascending by `created_time` (the source comparator is
`a.created_time < b.created_time`; on distinct keys any correct sort yields
the same list). -/
def sortSessions (l : List SessionInfo) : List SessionInfo :=
  List.insertionSort (fun a b => a.created_time ≤ b.created_time) l

/-- `remove(filename)` on the storage directory. -/
def deleteSessionFile (fs : FlashState) (name : String) : FlashState :=
  { fs with files := fs.files.filter (fun f => f.filename ≠ name) }

/-- The `for (const auto& session : sessions)` loop body of
`cleanupOldSessions`: skip the active session, stop (`break`) once usage is
at or below the low-water mark, otherwise delete and count. -/
def cleanupLoop : List SessionInfo → FlashState → ℕ → ℕ × FlashState
  | [], fs, count => (count, fs)
  | s :: rest, fs, count =>
      if s.filename = fs.current_session_ then cleanupLoop rest fs count
      else if getUsagePercent fs ≤ LOW_WATER_MARK_PCT then (count, fs)
      else if fs.files.any (fun f => f.filename = s.filename) then
        cleanupLoop rest (deleteSessionFile fs s.filename) (count + 1)
      else cleanupLoop rest fs count

/-- `FlashLogger::cleanupOldSessions`. -/
def cleanupOldSessions (fs : FlashState) : Bool × FlashState :=
  let sessions := listSessions fs
  if sessions.isEmpty then (false, fs)
  else
    let sorted := sortSessions sessions
    let r := cleanupLoop sorted fs 0
    (0 < r.1, r.2)

/-- `FlashLogger::checkStorage`. -/
def checkStorage (fs : FlashState) : Bool :=
  ¬ (HIGH_WATER_MARK_PCT ≤ getUsagePercent fs)

/-! ## Concrete fixtures used by counterexamples and witnesses -/

/-- A session start with all storage operations succeeding, clock at 0. -/
def startOp : OplOp := OplOp.start "/sd" "s" "d" "v" 0 0 0 0 (some 1) true true

/-- One GPS write (36 payload bytes per record). -/
def gpsOp : OplOp := OplOp.writeGps 40 (-74) 0 0 0 0 1000 1000

/-- A high-g accelerometer write (magnitude 10g ≥ 3g) at t = 2 s, past the
default 1 s event rate limit. -/
def bigGOp : OplOp := OplOp.writeAccel 10 0 0 2000000 2000000

/-- 101 GPS appends: payload occupancy 101·36 = 3636 ≥ 3614, with no commit
in sight. -/
def c1ops : List OplOp := startOp :: List.replicate 101 gpsOp

/-- 112 GPS appends (the 112th overflows: 111·36 + 36 = 4032 > 4016) followed
by an event-flushing accelerometer write. -/
def c4ops : List OplOp := startOp :: (List.replicate 112 gpsOp ++ [bigGOp])

/-- A start followed by one event-flushing accelerometer write. -/
def c9ops : List OplOp := [startOp, bigGOp]

/-- A block at 4004 payload bytes (248 accelerometer + 1 GPS record), where a
further 16-byte accelerometer append would exceed the 4016-byte capacity. -/
def nearFullBlock : OplBlock :=
  { payload := List.replicate 4004 (PByte.raw 0), data_size := 4004,
    sample_count := 112, flush_flags := 0, ts_start := 1000, ts_end := 2000,
    block_sequence := 7, session_id := (1, 2) }

/-- `FlashLogger()` constructor state over an empty storage directory. -/
def flashInit : FlashState :=
  { logging_ := false, file_open := false, current_session_ := "",
    base_path_ := "/spiffs", file := [], write_buffer_ := [], buffer_pos_ := 0,
    frame_count_ := 0, bytes_written_ := 0, files := [], total_bytes := 0,
    base_used := 0 }

/-- A FlashLogger mid-session: logging, one buffered frame. -/
def flashActive : FlashState :=
  { flashInit with logging_ := true, file_open := true,
                   current_session_ := "/spiffs/x.opl", file := [FlashChunk.header],
                   write_buffer_ := List.replicate 64 0, buffer_pos_ := 64 }

/-- A low-g accelerometer write (magnitude 0.1g, below the 3g threshold). -/
def smallGOp : OplOp := OplOp.writeAccel (mkRat 1 10) 0 0 1000 1000

/-- 225 low-g accelerometer appends: occupancy 225·16 = 3600, one append
below the 3614-byte size trigger. -/
def c1wops : List OplOp := startOp :: List.replicate 225 smallGOp

/-- Retention fixture: three completed sessions plus the active one; usage
(50 + 200 + 300 + 300 + 150)/1000 = 100 %. -/
def c6fs : FlashState :=
  { flashInit with
      logging_ := true, file_open := true, current_session_ := "/spiffs/act.opl",
      files := [⟨"/spiffs/b.opl", 300, 0, 2⟩, ⟨"/spiffs/act.opl", 150, 0, 4⟩,
                ⟨"/spiffs/a.opl", 200, 0, 1⟩, ⟨"/spiffs/c.opl", 300, 0, 3⟩],
      total_bytes := 1000, base_used := 50 }

/-- Flush-flag invariant: the in-progress block never carries a flush flag
(every site that sets a flag commits and resets immediately afterwards), so
every committed block carries at most one flag. -/
def flagsInv (st : OplState) : Prop :=
  st.current_block.flush_flags = 0 ∧
  ∀ b ∈ st.committed_blocks,
    b.flush_flags = 0 ∨ b.flush_flags = FLUSH_FLAG_TIME ∨
    b.flush_flags = FLUSH_FLAG_SIZE ∨ b.flush_flags = FLUSH_FLAG_EVENT

/-! ## Helper lemmas -/

theorem qadd_eq (a b : ℚ) : qadd a b = a + b := (Rat.add_def' a b).symm

theorem qsub_eq (a b : ℚ) : qsub a b = a - b := (Rat.sub_def' a b).symm

theorem qmul_eq (a b : ℚ) : qmul a b = a * b := by
  rw [qmul, Rat.mul_def, Rat.normalize_eq_mkRat]

theorem usToSec_eq (us : ℕ) : usToSec us = (us : ℚ) / 1000000 := by
  rw [usToSec, Rat.mkRat_eq_div]; push_cast; rfl

/-- `gmagEvent` decides exactly `sqrt(gx² + gy² + gz²) ≥ thr` (over ℝ). -/
theorem gmagEvent_iff (gx gy gz thr : ℚ) :
    gmagEvent gx gy gz thr = true ↔
      (thr ≤ 0 ∨ thr * thr ≤ gx * gx + gy * gy + gz * gz) := by
  unfold gmagEvent
  split
  · simpa using Or.inl ‹_›
  · simp only [qmul_eq, qadd_eq, decide_eq_true_eq]
    exact ⟨Or.inr, fun h => h.resolve_left ‹¬ _›⟩

theorem opl_stop_session_inactive (st : OplState) :
    (opl_stop_session st).logger_active = false := by
  by_cases h : st.logger_active <;> simp [opl_stop_session, h]

theorem opl_stop_session_of_inactive (st : OplState) (h : st.logger_active = false) :
    opl_stop_session st = st := by
  simp [opl_stop_session, h]

theorem flashStopSession_inactive (fs : FlashState) (o : Option ℕ) :
    (flashStopSession fs o).logging_ = false := by
  by_cases h : fs.logging_ <;> simp [flashStopSession, h]

theorem flashStopSession_of_inactive (fs : FlashState) (o : Option ℕ)
    (h : fs.logging_ = false) : flashStopSession fs o = fs := by
  simp [flashStopSession, h]

theorem block_add_accel_flags (b : OplBlock) (ts : ℕ) (gx gy gz : ℚ) :
    (block_add_accel b ts gx gy gz).2.flush_flags = b.flush_flags := by
  unfold block_add_accel; dsimp only; split <;> split <;> rfl

theorem block_add_gps_flags (b : OplBlock) (ts : ℕ) (lat lon alt speed heading hdop : ℚ) :
    (block_add_gps b ts lat lon alt speed heading hdop).2.flush_flags = b.flush_flags := by
  unfold block_add_gps; dsimp only; split <;> split <;> rfl

theorem block_add_accel_ok (b : OplBlock) (ts : ℕ) (gx gy gz : ℚ)
    (h : b.data_size + 4 + 12 ≤ OPL_MAX_DATA_PAYLOAD) :
    block_add_accel b ts gx gy gz =
      (true,
       { b with
           ts_start := if b.ts_start = 0 then ts else b.ts_start,
           ts_end := ts,
           payload := b.payload ++
             accelRecordBytes (offsetMs ts (if b.ts_start = 0 then ts else b.ts_start)) gx gy gz,
           data_size := b.data_size + 4 + 12,
           sample_count := (b.sample_count + 1) % 2 ^ 16 }) := by
  unfold block_add_accel
  dsimp only
  rw [if_neg (by omega)]

theorem block_add_gps_ok (b : OplBlock) (ts : ℕ) (lat lon alt speed heading hdop : ℚ)
    (h : b.data_size + 4 + 32 ≤ OPL_MAX_DATA_PAYLOAD) :
    block_add_gps b ts lat lon alt speed heading hdop =
      (true,
       { b with
           ts_start := if b.ts_start = 0 then ts else b.ts_start,
           ts_end := ts,
           payload := b.payload ++
             gpsRecordBytes (offsetMs ts (if b.ts_start = 0 then ts else b.ts_start))
               lat lon alt speed heading hdop,
           data_size := b.data_size + 4 + 32,
           sample_count := (b.sample_count + 1) % 2 ^ 16 }) := by
  unfold block_add_gps
  dsimp only
  rw [if_neg (by omega)]

/-- The flag values a committed block may carry. -/
def allowedFlags (n : ℕ) : Prop :=
  n = 0 ∨ n = FLUSH_FLAG_TIME ∨ n = FLUSH_FLAG_SIZE ∨ n = FLUSH_FLAG_EVENT

theorem allowedFlags_append {l : List OplBlock} {b : OplBlock}
    (h : ∀ x ∈ l, allowedFlags x.flush_flags) (hb : allowedFlags b.flush_flags) :
    ∀ x ∈ l ++ [b], allowedFlags x.flush_flags := by
  intro x hx
  rcases List.mem_append.mp hx with hx | hx
  · exact h x hx
  · rcases List.mem_singleton.mp hx with rfl
    exact hb

theorem flagsInv_def (st : OplState) :
    flagsInv st ↔ st.current_block.flush_flags = 0 ∧
      ∀ b ∈ st.committed_blocks, allowedFlags b.flush_flags := Iff.rfl

theorem flagsInv_write_block_to_file (st : OplState) (b : OplBlock) (h : flagsInv st)
    (hb : allowedFlags b.flush_flags) : flagsInv (write_block_to_file st b) := by
  obtain ⟨h0, hc⟩ := h
  unfold write_block_to_file
  split
  · exact ⟨h0, hc⟩
  · exact ⟨h0, allowedFlags_append hc hb⟩

theorem allowedFlags_or_time {n : ℕ} (h : n = 0) : allowedFlags (n ||| FLUSH_FLAG_TIME) := by
  subst h; right; left; decide

theorem allowedFlags_or_size {n : ℕ} (h : n = 0) : allowedFlags (n ||| FLUSH_FLAG_SIZE) := by
  subst h; right; right; left; decide

theorem allowedFlags_or_event {n : ℕ} (h : n = 0) : allowedFlags (n ||| FLUSH_FLAG_EVENT) := by
  subst h; right; right; right; decide

theorem flagsInv_accel_flush_checks (st1 : OplState) (gx gy gz : ℚ) (now : ℕ)
    (h : flagsInv st1) : flagsInv (accel_flush_checks st1 gx gy gz now).2 := by
  obtain ⟨h0, hc⟩ := h
  unfold accel_flush_checks
  dsimp only
  split
  · split
    · refine ⟨rfl, ?_⟩
      unfold write_block_to_file
      split
      · exact hc
      · exact allowedFlags_append hc (allowedFlags_or_event h0)
    · exact ⟨h0, hc⟩
  · split
    · refine ⟨rfl, ?_⟩
      unfold write_block_to_file
      split
      · exact hc
      · exact allowedFlags_append hc (allowedFlags_or_size h0)
    · exact ⟨h0, hc⟩

theorem flagsInv_write_accel (st : OplState) (gx gy gz : ℚ) (tsu now : ℕ)
    (h : flagsInv st) : flagsInv (opl_write_accel st gx gy gz tsu now).2 := by
  obtain ⟨h0, hc⟩ := h
  unfold opl_write_accel
  dsimp only
  split
  case isFalse => exact ⟨h0, hc⟩
  generalize (if tsu = 0 then now else tsu) = ts0
  split
  · refine flagsInv_accel_flush_checks _ gx gy gz now ⟨?_, hc⟩
    rw [block_add_accel_flags]; exact h0
  · have hcommit : ∀ x ∈ (write_block_to_file st
        (block_add_accel st.current_block ts0 gx gy gz).2).committed_blocks,
        allowedFlags x.flush_flags := by
      unfold write_block_to_file
      split
      · exact hc
      · refine allowedFlags_append hc ?_
        rw [block_add_accel_flags]
        exact Or.inl h0
    split
    · refine flagsInv_accel_flush_checks _ gx gy gz now ⟨?_, hcommit⟩
      rw [block_add_accel_flags]; rfl
    · refine ⟨?_, hcommit⟩
      rw [block_add_accel_flags]; rfl

theorem flagsInv_write_gps (st : OplState) (lat lon alt speed heading hdop : ℚ)
    (tsu now : ℕ) (h : flagsInv st) :
    flagsInv (opl_write_gps st lat lon alt speed heading hdop tsu now).2 := by
  obtain ⟨h0, hc⟩ := h
  unfold opl_write_gps
  dsimp only
  split
  case isFalse => exact ⟨h0, hc⟩
  generalize (if tsu = 0 then now else tsu) = ts0
  split
  · refine ⟨?_, hc⟩
    rw [block_add_gps_flags]; exact h0
  · have hcommit : ∀ x ∈ (write_block_to_file st
        (block_add_gps st.current_block ts0 lat lon alt speed heading hdop).2).committed_blocks,
        allowedFlags x.flush_flags := by
      unfold write_block_to_file
      split
      · exact hc
      · refine allowedFlags_append hc ?_
        rw [block_add_gps_flags]
        exact Or.inl h0
    split
    · refine ⟨?_, hcommit⟩
      rw [block_add_gps_flags]; rfl
    · refine ⟨?_, hcommit⟩
      rw [block_add_gps_flags]; rfl

theorem flagsInv_check_flush (st : OplState) (now : ℕ) (h : flagsInv st) :
    flagsInv (opl_check_flush st now) := by
  obtain ⟨h0, hc⟩ := h
  unfold opl_check_flush
  dsimp only
  split
  · split
    · refine ⟨rfl, ?_⟩
      unfold write_block_to_file
      split
      · exact hc
      · exact allowedFlags_append hc (allowedFlags_or_time h0)
    · exact ⟨h0, hc⟩
  · exact ⟨h0, hc⟩

theorem flagsInv_stop (st : OplState) (h : flagsInv st) :
    flagsInv (opl_stop_session st) := by
  obtain ⟨h0, hc⟩ := h
  unfold opl_stop_session
  dsimp only
  split
  · split
    · unfold write_block_to_file
      split
      · exact ⟨h0, hc⟩
      · exact ⟨h0, allowedFlags_append hc (Or.inl h0)⟩
    · exact ⟨h0, hc⟩
  · exact ⟨h0, hc⟩

theorem flagsInv_start (st : OplState)
    (bp sn dn vid : String) (w : ℤ) (t : ℚ) (crc now : ℕ)
    (scan : Option ℕ) (fok hok : Bool) (h : flagsInv st) :
    flagsInv (opl_start_session st bp sn dn vid w t crc now scan fok hok).2 := by
  have hstop : flagsInv (if st.logger_active = true then opl_stop_session st else st) := by
    split
    · exact flagsInv_stop st h
    · exact h
  unfold opl_start_session
  dsimp only
  generalize (if st.logger_active = true then opl_stop_session st else st) = st0 at hstop
  obtain ⟨h0, hc⟩ := hstop
  split <;> (try split) <;> (try split) <;> (try split) <;>
    first
      | exact ⟨h0, hc⟩
      | exact ⟨rfl, hc⟩

theorem flagsInv_step (st : OplState) (op : OplOp) (h : flagsInv st) :
    flagsInv (oplStep st op) := by
  cases op with
  | start bp sn dn vid w t crc now scan fok hok =>
      exact flagsInv_start st bp sn dn vid w t crc now scan fok hok h
  | writeAccel gx gy gz ts now => exact flagsInv_write_accel st gx gy gz ts now h
  | writeGps lat lon alt speed heading hdop ts now =>
      exact flagsInv_write_gps st lat lon alt speed heading hdop ts now h
  | checkFlush now => exact flagsInv_check_flush st now h
  | stop => exact flagsInv_stop st h
  | addHw hw conn ident =>
      obtain ⟨h0, hc⟩ := h
      show flagsInv (opl_add_hardware_item st hw conn ident).2
      unfold opl_add_hardware_item
      split <;> exact ⟨h0, hc⟩
  | setGforce g =>
      obtain ⟨h0, hc⟩ := h
      show flagsInv (opl_set_gforce_threshold st g)
      unfold opl_set_gforce_threshold
      split <;> exact ⟨h0, hc⟩
  | setRateLimit s =>
      obtain ⟨h0, hc⟩ := h
      show flagsInv (opl_set_event_rate_limit st s)
      unfold opl_set_event_rate_limit
      split <;> exact ⟨h0, hc⟩

theorem flagsInv_run (ops : List OplOp) : flagsInv (oplRun ops) := by
  have hinit : flagsInv oplInit := ⟨rfl, by intro b hb; cases hb⟩
  rw [oplRun]
  generalize oplInit = st at hinit ⊢
  induction ops generalizing st with
  | nil => exact hinit
  | cons op rest ih => exact ih _ (flagsInv_step st op hinit)

section WriteAccelBranches

variable (st : OplState) (gx gy gz : ℚ) (tsu now : ℕ)

/-- Branch lemma: append fits, event condition holds, rate limit elapsed —
EVENT commit. -/
theorem opl_write_accel_event_commit
    (hact : st.logger_active = true)
    (hroom : st.current_block.data_size + 4 + 12 ≤ OPL_MAX_DATA_PAYLOAD)
    (hcnt : st.current_block.sample_count + 1 < 2 ^ 16)
    (hg : gmagEvent gx gy gz st.gforce_threshold = true)
    (helapsed : st.event_rate_limit_s ≤ qsub (usToSec now) st.last_event_flush_time) :
    opl_write_accel st gx gy gz tsu now =
      (true,
       { st with
           current_block := freshBlock st.current_session,
           file := st.file ++ [OplRecord.dataBlock
             { (block_add_accel st.current_block (if tsu = 0 then now else tsu) gx gy gz).2 with
                 flush_flags :=
                   (block_add_accel st.current_block
                     (if tsu = 0 then now else tsu) gx gy gz).2.flush_flags |||
                   FLUSH_FLAG_EVENT }],
           committed_blocks := st.committed_blocks ++
             [{ (block_add_accel st.current_block (if tsu = 0 then now else tsu) gx gy gz).2 with
                  flush_flags :=
                    (block_add_accel st.current_block
                      (if tsu = 0 then now else tsu) gx gy gz).2.flush_flags |||
                    FLUSH_FLAG_EVENT }],
           last_flush_time := usToSec now,
           last_event_flush_time := usToSec now }) := by
  have hA := block_add_accel_ok st.current_block (if tsu = 0 then now else tsu) gx gy gz hroom
  have hne : ¬ ((st.current_block.sample_count + 1) % 2 ^ 16 = 0) := by
    rw [Nat.mod_eq_of_lt hcnt]; omega
  unfold opl_write_accel
  rw [if_pos hact]
  dsimp only
  rw [hA]
  dsimp only
  try rw [if_pos rfl]
  unfold accel_flush_checks
  dsimp only
  rw [if_pos hg, if_pos helapsed]
  unfold write_block_to_file
  dsimp only
  rw [if_neg hne]

/-- Branch lemma: append fits, event condition holds, rate limit *not*
elapsed — no flush, sample stays buffered; the size branch is skipped even
when occupancy is past the trigger. -/
theorem opl_write_accel_event_suppressed
    (hact : st.logger_active = true)
    (hroom : st.current_block.data_size + 4 + 12 ≤ OPL_MAX_DATA_PAYLOAD)
    (hg : gmagEvent gx gy gz st.gforce_threshold = true)
    (hnot : ¬ st.event_rate_limit_s ≤ qsub (usToSec now) st.last_event_flush_time) :
    opl_write_accel st gx gy gz tsu now =
      (true, { st with current_block :=
                 (block_add_accel st.current_block (if tsu = 0 then now else tsu) gx gy gz).2 }) := by
  have hA := block_add_accel_ok st.current_block (if tsu = 0 then now else tsu) gx gy gz hroom
  unfold opl_write_accel
  rw [if_pos hact]
  dsimp only
  rw [hA]
  dsimp only
  try rw [if_pos rfl]
  unfold accel_flush_checks
  dsimp only
  rw [if_pos hg, if_neg hnot]

/-- Branch lemma: append fits, no event, post-append occupancy at or past the
size trigger — SIZE commit. -/
theorem opl_write_accel_size_commit
    (hact : st.logger_active = true)
    (hroom : st.current_block.data_size + 4 + 12 ≤ OPL_MAX_DATA_PAYLOAD)
    (hcnt : st.current_block.sample_count + 1 < 2 ^ 16)
    (hg : gmagEvent gx gy gz st.gforce_threshold = false)
    (hsize : SIZE_TRIGGER ≤ st.current_block.data_size + 4 + 12) :
    opl_write_accel st gx gy gz tsu now =
      (true,
       { st with
           current_block := freshBlock st.current_session,
           file := st.file ++ [OplRecord.dataBlock
             { (block_add_accel st.current_block (if tsu = 0 then now else tsu) gx gy gz).2 with
                 flush_flags :=
                   (block_add_accel st.current_block
                     (if tsu = 0 then now else tsu) gx gy gz).2.flush_flags |||
                   FLUSH_FLAG_SIZE }],
           committed_blocks := st.committed_blocks ++
             [{ (block_add_accel st.current_block (if tsu = 0 then now else tsu) gx gy gz).2 with
                  flush_flags :=
                    (block_add_accel st.current_block
                      (if tsu = 0 then now else tsu) gx gy gz).2.flush_flags |||
                    FLUSH_FLAG_SIZE }],
           last_flush_time := usToSec now }) := by
  have hA := block_add_accel_ok st.current_block (if tsu = 0 then now else tsu) gx gy gz hroom
  have hne : ¬ ((st.current_block.sample_count + 1) % 2 ^ 16 = 0) := by
    rw [Nat.mod_eq_of_lt hcnt]; omega
  have hg' : ¬ (gmagEvent gx gy gz st.gforce_threshold = true) := by
    rw [hg]; exact Bool.false_ne_true
  unfold opl_write_accel
  rw [if_pos hact]
  dsimp only
  rw [hA]
  dsimp only
  try rw [if_pos rfl]
  unfold accel_flush_checks
  dsimp only
  rw [if_neg hg']
  rw [if_pos hsize]
  unfold write_block_to_file
  dsimp only
  rw [if_neg hne]

/-- Branch lemma: append fits, no event, occupancy below the size trigger —
no flush. -/
theorem opl_write_accel_no_trigger
    (hact : st.logger_active = true)
    (hroom : st.current_block.data_size + 4 + 12 ≤ OPL_MAX_DATA_PAYLOAD)
    (hg : gmagEvent gx gy gz st.gforce_threshold = false)
    (hsize : ¬ SIZE_TRIGGER ≤ st.current_block.data_size + 4 + 12) :
    opl_write_accel st gx gy gz tsu now =
      (true, { st with current_block :=
                 (block_add_accel st.current_block (if tsu = 0 then now else tsu) gx gy gz).2 }) := by
  have hA := block_add_accel_ok st.current_block (if tsu = 0 then now else tsu) gx gy gz hroom
  have hg' : ¬ (gmagEvent gx gy gz st.gforce_threshold = true) := by
    rw [hg]; exact Bool.false_ne_true
  unfold opl_write_accel
  rw [if_pos hact]
  dsimp only
  rw [hA]
  dsimp only
  try rw [if_pos rfl]
  unfold accel_flush_checks
  dsimp only
  rw [if_neg hg']
  rw [if_neg hsize]

end WriteAccelBranches

/-- Branch lemma: a GPS append that fits never commits anything — the state
change is exactly the appended block. -/
theorem opl_write_gps_fits (st : OplState) (lat lon alt speed heading hdop : ℚ)
    (tsu now : ℕ)
    (hact : st.logger_active = true)
    (hroom : st.current_block.data_size + 4 + 32 ≤ OPL_MAX_DATA_PAYLOAD) :
    opl_write_gps st lat lon alt speed heading hdop tsu now =
      (true, { st with current_block :=
                 (block_add_gps st.current_block (if tsu = 0 then now else tsu)
                   lat lon alt speed heading hdop).2 }) := by
  have hA := block_add_gps_ok st.current_block (if tsu = 0 then now else tsu)
    lat lon alt speed heading hdop hroom
  unfold opl_write_gps
  rw [if_pos hact]
  dsimp only
  rw [hA]
  dsimp only
  try rw [if_pos rfl]

/-! ## Claim C2 -/

/-- C2 counterexample: at a block with 4004 payload bytes, an accelerometer
append fails (would exceed the 4016-byte capacity) but the block is *not*
left unchanged — `block_add_accel` updates `ts_end` (and, on an empty-epoch
block, `ts_start`) before the capacity check, so the failing call mutates the
block's end timestamp from 2000 to 5000. -/
theorem block_add_overflow_mutates_counterexample :
    (block_add_accel nearFullBlock 5000 1 0 0).1 = false ∧
    ¬ ((block_add_accel nearFullBlock 5000 1 0 0).2 = nearFullBlock) ∧
    (block_add_accel nearFullBlock 5000 1 0 0).2.ts_end = 5000 := by
  refine ⟨by decide, ?_, by decide⟩
  intro h
  have : (block_add_accel nearFullBlock 5000 1 0 0).2.ts_end = nearFullBlock.ts_end := by
    rw [h]
  revert this
  decide

/-- C2 (amended): an append that would exceed the payload capacity returns
`false` and leaves the payload bytes, `data_size`, `sample_count`,
`flush_flags`, `block_sequence` and `session_id` unchanged, but the
start/end timestamps are updated before the capacity check: `ts_end` becomes
the sample timestamp and `ts_start` is established if it was zero. -/
theorem block_add_overflow_no_append
    (b : OplBlock) (ts : ℕ) (gx gy gz lat lon alt speed heading hdop : ℚ) :
    (OPL_MAX_DATA_PAYLOAD < b.data_size + 16 →
      block_add_accel b ts gx gy gz =
        (false, { b with ts_start := if b.ts_start = 0 then ts else b.ts_start,
                         ts_end := ts })) ∧
    (OPL_MAX_DATA_PAYLOAD < b.data_size + 36 →
      block_add_gps b ts lat lon alt speed heading hdop =
        (false, { b with ts_start := if b.ts_start = 0 then ts else b.ts_start,
                         ts_end := ts })) := by
  constructor <;> intro h
  · have h' : OPL_MAX_DATA_PAYLOAD < b.data_size + 4 + 12 := by omega
    simp [block_add_accel, h']
  · have h' : OPL_MAX_DATA_PAYLOAD < b.data_size + 4 + 32 := by omega
    simp [block_add_gps, h']

/-- Witness for `block_add_overflow_no_append` at the concrete near-full
block. -/
theorem block_add_overflow_no_append_witness :
    (OPL_MAX_DATA_PAYLOAD < nearFullBlock.data_size + 16 ∧
      block_add_accel nearFullBlock 5000 1 0 0 =
        (false, { nearFullBlock with
                    ts_start := if nearFullBlock.ts_start = 0 then 5000
                                else nearFullBlock.ts_start,
                    ts_end := 5000 })) ∧
    (OPL_MAX_DATA_PAYLOAD < nearFullBlock.data_size + 36 ∧
      block_add_gps nearFullBlock 5000 40 (-74) 0 0 0 0 =
        (false, { nearFullBlock with
                    ts_start := if nearFullBlock.ts_start = 0 then 5000
                                else nearFullBlock.ts_start,
                    ts_end := 5000 })) :=
  ⟨⟨by decide, (block_add_overflow_no_append nearFullBlock 5000 1 0 0 40 (-74) 0 0 0 0).1
       (by decide)⟩,
   ⟨by decide, (block_add_overflow_no_append nearFullBlock 5000 1 0 0 40 (-74) 0 0 0 0).2
       (by decide)⟩⟩

/-! ## Claim C5 -/

/-- C5: `ring_buffer_push` on a full queue returns `false` and bumps the
uint32 drop counter, leaving `head`, `tail` and the stored samples untouched;
on a non-full queue it stores the sample at `head`, advances `head` and
returns `true` (with `tail` and the drop counter untouched). -/
theorem ring_buffer_push_spec (rb : RingBuffer) (s : sample_t) :
    (ring_buffer_is_full rb = true →
      ring_buffer_push rb s =
        (false, { rb with drop_count := (rb.drop_count + 1) % 2 ^ 32 })) ∧
    (ring_buffer_is_full rb = false →
      ring_buffer_push rb s =
        (true, { rb with buffer := rb.buffer.set rb.head s,
                         head := next_index rb.head })) := by
  constructor <;> intro h <;> simp [ring_buffer_push, h]

/-- Witness for `ring_buffer_push_spec`: a full queue (head = 2047, tail = 0)
and the freshly initialised (empty) queue. -/
theorem ring_buffer_push_spec_witness :
    (ring_buffer_is_full { ring_buffer_init with head := 2047 } = true ∧
      ring_buffer_push { ring_buffer_init with head := 2047 } zeroSample =
        (false, { { ring_buffer_init with head := 2047 } with
                    drop_count := ({ ring_buffer_init with head := 2047 }.drop_count + 1)
                                    % 2 ^ 32 })) ∧
    (ring_buffer_is_full ring_buffer_init = false ∧
      ring_buffer_push ring_buffer_init zeroSample =
        (true, { ring_buffer_init with
                   buffer := ring_buffer_init.buffer.set ring_buffer_init.head zeroSample,
                   head := next_index ring_buffer_init.head })) :=
  ⟨⟨by decide, (ring_buffer_push_spec { ring_buffer_init with head := 2047 } zeroSample).1
      (by decide)⟩,
   ⟨by decide, (ring_buffer_push_spec ring_buffer_init zeroSample).2 (by decide)⟩⟩

/-! ## Claim C10 -/

/-- C10: a write call with `timestamp_us = 0` behaves exactly as the same
call with the current clock value substituted for the timestamp — the
explicit zero timestamp is never recorded. -/
theorem write_zero_timestamp_substitutes_clock
    (st : OplState) (gx gy gz lat lon alt speed heading hdop : ℚ) (now : ℕ) :
    opl_write_accel st gx gy gz 0 now = opl_write_accel st gx gy gz now now ∧
    opl_write_gps st lat lon alt speed heading hdop 0 now =
      opl_write_gps st lat lon alt speed heading hdop now now := by
  constructor
  · simp [opl_write_accel, ite_self]
  · simp [opl_write_gps, ite_self]

/-! ## Claim C8 -/

/-- C8: stopping an inactive session is a no-op (state and file contents
unchanged), hence stopping twice equals stopping once — for both the copilot
logger and the FlashLogger. -/
theorem stop_session_idempotent (st : OplState) (fs : FlashState) (o o' : Option ℕ) :
    (st.logger_active = false → opl_stop_session st = st) ∧
    opl_stop_session (opl_stop_session st) = opl_stop_session st ∧
    (fs.logging_ = false → flashStopSession fs o = fs) ∧
    flashStopSession (flashStopSession fs o) o' = flashStopSession fs o := by
  refine ⟨fun h => opl_stop_session_of_inactive st h, ?_,
          fun h => flashStopSession_of_inactive fs o h, ?_⟩
  · exact opl_stop_session_of_inactive _ (opl_stop_session_inactive st)
  · exact flashStopSession_of_inactive _ o' (flashStopSession_inactive fs o)

/-- Witness for `stop_session_idempotent` at the initial (inactive) states. -/
theorem stop_session_idempotent_witness :
    (oplInit.logger_active = false ∧ opl_stop_session oplInit = oplInit) ∧
    (flashInit.logging_ = false ∧ flashStopSession flashInit none = flashInit) :=
  ⟨⟨by decide, (stop_session_idempotent oplInit flashInit none none).1 (by decide)⟩,
   ⟨by decide, (stop_session_idempotent oplInit flashInit none none).2.2.1 (by decide)⟩⟩

/-! ## Claim C7 -/

/-- C7 counterexample: `FlashLogger::startSession` called while a session is
active returns `false` and leaves the logger state (including the open
session) completely untouched — it does *not* close the active session
first, and it fails precisely because a session was active. -/
theorem flash_start_active_fails_counterexample :
    flashActive.logging_ = true ∧
    flashStartSession flashActive (some "y.opl") "/spiffs/gen.opl" true true =
      (false, flashActive) := by
  constructor
  · decide
  · rfl

/-- C7 (amended): the copilot logger's `opl_start_session` auto-stops — when
a session is active it behaves exactly as if `opl_stop_session` had been
called first, so it never fails merely because a session was active; the
esp32 `FlashLogger::startSession`, by contrast, refuses (returns `false`,
state unchanged) while logging. -/
theorem start_session_auto_stop
    (st : OplState) (bp sn dn vid : String) (w : ℤ) (t : ℚ) (crc now : ℕ)
    (scan : Option ℕ) (fok hok : Bool)
    (fs : FlashState) (n : Option String) (g : String) (ffok fhok : Bool) :
    (st.logger_active = true →
      opl_start_session st bp sn dn vid w t crc now scan fok hok =
        opl_start_session (opl_stop_session st) bp sn dn vid w t crc now scan fok hok) ∧
    (fs.logging_ = true → flashStartSession fs n g ffok fhok = (false, fs)) := by
  constructor
  · intro h
    have h2 := opl_stop_session_inactive st
    simp only [opl_start_session, h, h2, if_true, if_false, Bool.false_eq_true]
  · intro h
    simp [flashStartSession, h]

/-- Witness for `start_session_auto_stop`: an active copilot logger state and
the active FlashLogger fixture. -/
theorem start_session_auto_stop_witness :
    ((oplRun c9ops).logger_active = true ∧
      opl_start_session (oplRun c9ops) "/sd" "s2" "d2" "v2" 0 0 0 9000000 (some 2) true true =
        opl_start_session (opl_stop_session (oplRun c9ops)) "/sd" "s2" "d2" "v2" 0 0 0
          9000000 (some 2) true true) ∧
    (flashActive.logging_ = true ∧
      flashStartSession flashActive none "/spiffs/gen.opl" true true = (false, flashActive)) :=
  ⟨⟨by decide,
    (start_session_auto_stop (oplRun c9ops) "/sd" "s2" "d2" "v2" 0 0 0 9000000 (some 2)
        true true flashActive none "/spiffs/gen.opl" true true).1 (by decide)⟩,
   ⟨by decide,
    (start_session_auto_stop (oplRun c9ops) "/sd" "s2" "d2" "v2" 0 0 0 9000000 (some 2)
        true true flashActive none "/spiffs/gen.opl" true true).2 (by decide)⟩⟩

/-! ## Claim C1 -/

/-- C1 counterexample: a concrete execution in which 101 GPS samples are
accepted into the active block while a session is active, payload occupancy
reaches 3636 ≥ 3614 bytes (past 90 % of `MAX_DATA_PAYLOAD`), and *no* block
is ever committed — `opl_write_gps` evaluates no size trigger at all. -/
theorem gps_size_trigger_counterexample :
    (oplRun c1ops).logger_active = true ∧
    SIZE_TRIGGER ≤ (oplRun c1ops).current_block.data_size ∧
    (oplRun c1ops).current_block.sample_count = 101 ∧
    (oplRun c1ops).committed_blocks = [] := by
  refine ⟨by decide, by decide, by decide, by decide⟩

/-- C1 (amended): the size trigger is evaluated only after an accelerometer
append, and only when the event-magnitude condition did not hold: an accepted
accelerometer sample whose magnitude is below the threshold commits the block
with the SIZE flag exactly when post-append occupancy reaches
`(int)(MAX_DATA_PAYLOAD * 0.9f)` = 3614 bytes, and the next sample then goes
to a fresh empty block; a GPS append that fits never triggers a size commit,
whatever the occupancy. -/
theorem size_trigger_accel_only (st : OplState)
    (gx gy gz lat lon alt speed heading hdop : ℚ) (tsu now : ℕ)
    (hact : st.logger_active = true)
    (hcnt : st.current_block.sample_count + 1 < 2 ^ 16) :
    (st.current_block.data_size + 4 + 12 ≤ OPL_MAX_DATA_PAYLOAD →
     gmagEvent gx gy gz st.gforce_threshold = false →
     SIZE_TRIGGER ≤ st.current_block.data_size + 4 + 12 →
     opl_write_accel st gx gy gz tsu now =
       (true,
        { st with
            current_block := freshBlock st.current_session,
            file := st.file ++ [OplRecord.dataBlock
              { (block_add_accel st.current_block (if tsu = 0 then now else tsu) gx gy gz).2 with
                  flush_flags :=
                    (block_add_accel st.current_block
                      (if tsu = 0 then now else tsu) gx gy gz).2.flush_flags |||
                    FLUSH_FLAG_SIZE }],
            committed_blocks := st.committed_blocks ++
              [{ (block_add_accel st.current_block (if tsu = 0 then now else tsu) gx gy gz).2 with
                   flush_flags :=
                     (block_add_accel st.current_block
                       (if tsu = 0 then now else tsu) gx gy gz).2.flush_flags |||
                     FLUSH_FLAG_SIZE }],
            last_flush_time := usToSec now })) ∧
    (st.current_block.data_size + 4 + 12 ≤ OPL_MAX_DATA_PAYLOAD →
     gmagEvent gx gy gz st.gforce_threshold = false →
     ¬ SIZE_TRIGGER ≤ st.current_block.data_size + 4 + 12 →
     opl_write_accel st gx gy gz tsu now =
       (true, { st with current_block :=
                  (block_add_accel st.current_block (if tsu = 0 then now else tsu) gx gy gz).2 })) ∧
    (st.current_block.data_size + 4 + 32 ≤ OPL_MAX_DATA_PAYLOAD →
     opl_write_gps st lat lon alt speed heading hdop tsu now =
       (true, { st with current_block :=
                  (block_add_gps st.current_block (if tsu = 0 then now else tsu)
                    lat lon alt speed heading hdop).2 })) :=
  ⟨fun h1 h2 h3 => opl_write_accel_size_commit st gx gy gz tsu now hact h1 hcnt h2 h3,
   fun h1 h2 h3 => opl_write_accel_no_trigger st gx gy gz tsu now hact h1 h2 h3,
   fun h1 => opl_write_gps_fits st lat lon alt speed heading hdop tsu now hact h1⟩

/-- Witness for `size_trigger_accel_only`: after 225 low-g accelerometer
appends (3600 bytes) the 226th crosses the trigger and commits exactly one
SIZE block; at the fresh session the same write commits nothing; a GPS write
at 3600 bytes occupancy also commits nothing. -/
theorem size_trigger_accel_only_witness :
    ((oplRun c1wops).logger_active = true ∧
      (opl_write_accel (oplRun c1wops) (mkRat 1 10) 0 0 1000 1000).2.committed_blocks.length = 1 ∧
      (opl_write_accel (oplRun c1wops) (mkRat 1 10) 0 0 1000 1000).2.current_block.data_size = 0) ∧
    (opl_write_accel (oplRun [startOp]) (mkRat 1 10) 0 0 1000 1000).2.committed_blocks.length = 0 ∧
    (opl_write_gps (oplRun c1wops) 40 (-74) 0 0 0 0 1000 1000).2.committed_blocks.length = 0 := by
  have h1 := (size_trigger_accel_only (oplRun c1wops) (mkRat 1 10) 0 0
      40 (-74) 0 0 0 0 1000 1000 (by decide) (by decide)).1 (by decide) (by decide) (by decide)
  have h2 := (size_trigger_accel_only (oplRun [startOp]) (mkRat 1 10) 0 0
      40 (-74) 0 0 0 0 1000 1000 (by decide) (by decide)).2.1 (by decide) (by decide) (by decide)
  have h3 := (size_trigger_accel_only (oplRun c1wops) (mkRat 1 10) 0 0
      40 (-74) 0 0 0 0 1000 1000 (by decide) (by decide)).2.2 (by decide)
  refine ⟨⟨by decide, ?_, ?_⟩, ?_, ?_⟩
  · rw [h1]; dsimp only; rw [List.length_append]; decide
  · rw [h1]; rfl
  · rw [h2]; rfl
  · rw [h3]; rfl

/-! ## Claim C3 -/

/-- C3: for an accepted accelerometer sample whose magnitude meets the
g-force threshold: if at least the rate-limit interval has elapsed since the
last event flush, the block is committed immediately with the EVENT flag and
the event clock is reset; if not, no flush happens and the sample stays in
the current block; consequently two above-threshold samples within one
rate-limit window produce exactly one EVENT-flagged commit. -/
theorem event_trigger_rate_limit (st : OplState)
    (gx gy gz gx2 gy2 gz2 : ℚ) (tsu now tsu2 now2 : ℕ)
    (hact : st.logger_active = true)
    (hroom : st.current_block.data_size + 4 + 12 ≤ OPL_MAX_DATA_PAYLOAD)
    (hcnt : st.current_block.sample_count + 1 < 2 ^ 16)
    (hg : gmagEvent gx gy gz st.gforce_threshold = true) :
    (st.event_rate_limit_s ≤ usToSec now - st.last_event_flush_time →
      opl_write_accel st gx gy gz tsu now =
        (true,
         { st with
             current_block := freshBlock st.current_session,
             file := st.file ++ [OplRecord.dataBlock
               { (block_add_accel st.current_block (if tsu = 0 then now else tsu) gx gy gz).2 with
                   flush_flags :=
                     (block_add_accel st.current_block
                       (if tsu = 0 then now else tsu) gx gy gz).2.flush_flags |||
                     FLUSH_FLAG_EVENT }],
             committed_blocks := st.committed_blocks ++
               [{ (block_add_accel st.current_block (if tsu = 0 then now else tsu) gx gy gz).2 with
                    flush_flags :=
                      (block_add_accel st.current_block
                        (if tsu = 0 then now else tsu) gx gy gz).2.flush_flags |||
                      FLUSH_FLAG_EVENT }],
             last_flush_time := usToSec now,
             last_event_flush_time := usToSec now })) ∧
    (¬ st.event_rate_limit_s ≤ usToSec now - st.last_event_flush_time →
      opl_write_accel st gx gy gz tsu now =
        (true, { st with current_block :=
                   (block_add_accel st.current_block (if tsu = 0 then now else tsu) gx gy gz).2 })) ∧
    (st.event_rate_limit_s ≤ usToSec now - st.last_event_flush_time →
     gmagEvent gx2 gy2 gz2 st.gforce_threshold = true →
     usToSec now2 - usToSec now < st.event_rate_limit_s →
     (opl_write_accel (opl_write_accel st gx gy gz tsu now).2 gx2 gy2 gz2 tsu2 now2).2.committed_blocks
        = st.committed_blocks ++
          [{ (block_add_accel st.current_block (if tsu = 0 then now else tsu) gx gy gz).2 with
               flush_flags :=
                 (block_add_accel st.current_block
                   (if tsu = 0 then now else tsu) gx gy gz).2.flush_flags |||
                 FLUSH_FLAG_EVENT }] ∧
     (opl_write_accel (opl_write_accel st gx gy gz tsu now).2 gx2 gy2 gz2 tsu2 now2).2.current_block.sample_count
        = 1) := by
  refine ⟨?_, ?_, ?_⟩
  · intro he
    exact opl_write_accel_event_commit st gx gy gz tsu now hact hroom hcnt hg
      (by rw [qsub_eq]; exact he)
  · intro hn
    exact opl_write_accel_event_suppressed st gx gy gz tsu now hact hroom hg
      (by rw [qsub_eq]; exact hn)
  · intro he hg2 hlt
    have h1 := opl_write_accel_event_commit st gx gy gz tsu now hact hroom hcnt hg
      (by rw [qsub_eq]; exact he)
    rw [h1]
    dsimp only
    have h2 := opl_write_accel_event_suppressed
      { st with
          current_block := freshBlock st.current_session,
          file := st.file ++ [OplRecord.dataBlock
            { (block_add_accel st.current_block (if tsu = 0 then now else tsu) gx gy gz).2 with
                flush_flags :=
                  (block_add_accel st.current_block
                    (if tsu = 0 then now else tsu) gx gy gz).2.flush_flags |||
                  FLUSH_FLAG_EVENT }],
          committed_blocks := st.committed_blocks ++
            [{ (block_add_accel st.current_block (if tsu = 0 then now else tsu) gx gy gz).2 with
                 flush_flags :=
                   (block_add_accel st.current_block
                     (if tsu = 0 then now else tsu) gx gy gz).2.flush_flags |||
                   FLUSH_FLAG_EVENT }],
          last_flush_time := usToSec now,
          last_event_flush_time := usToSec now }
      gx2 gy2 gz2 tsu2 now2 hact
      (by show (0 : ℕ) + 4 + 12 ≤ OPL_MAX_DATA_PAYLOAD; decide) hg2
      (by rw [qsub_eq]; dsimp only; exact not_le.mpr hlt)
    rw [h2]
    dsimp only
    constructor
    · rfl
    · rfl

/-- Witness for `event_trigger_rate_limit`: fresh session (threshold 3g,
rate limit 1 s, last event flush at 0); a 10g sample at t = 2 s commits one
EVENT block; a second 10g sample at t = 2.5 s stays buffered. -/
theorem event_trigger_rate_limit_witness :
    ((oplRun [startOp]).logger_active = true ∧
      (opl_write_accel (oplRun [startOp]) 10 0 0 2000000 2000000).2.committed_blocks.length = 1) ∧
    (opl_write_accel (opl_write_accel (oplRun [startOp]) 10 0 0 2000000 2000000).2
        10 0 0 2500000 2500000).2.committed_blocks.length = 1 ∧
    (opl_write_accel (opl_write_accel (oplRun [startOp]) 10 0 0 2000000 2000000).2
        10 0 0 2500000 2500000).2.current_block.sample_count = 1 := by
  have hth := event_trigger_rate_limit (oplRun [startOp]) 10 0 0 10 0 0
    2000000 2000000 2500000 2500000 (by decide) (by decide) (by decide) (by decide)
  have helapsed : (oplRun [startOp]).event_rate_limit_s ≤
      usToSec 2000000 - (oplRun [startOp]).last_event_flush_time := by
    have : (usToSec 2000000 : ℚ) = 2 := by rw [usToSec_eq]; norm_num
    rw [this]
    norm_num [oplRun, oplStep, startOp, opl_start_session, oplInit, opl_stop_session, usToSec_eq]
  have hlt : usToSec 2500000 - usToSec 2000000 < (oplRun [startOp]).event_rate_limit_s := by
    rw [usToSec_eq, usToSec_eq]
    norm_num [oplRun, oplStep, startOp, opl_start_session, oplInit, opl_stop_session, usToSec_eq]
  have h1 := hth.1 helapsed
  have h3 := hth.2.2 helapsed (by decide) hlt
  refine ⟨⟨by decide, ?_⟩, ?_, h3.2⟩
  · rw [h1]; dsimp only; rw [List.length_append]; decide
  · rw [h3.1]; rw [List.length_append]; decide

theorem accel_flush_checks_fst (st1 : OplState) (gx gy gz : ℚ) (now : ℕ) :
    (accel_flush_checks st1 gx gy gz now).1 = true := by
  unfold accel_flush_checks
  dsimp only
  split <;> (try split) <;> rfl

theorem opl_write_accel_fst (st : OplState) (gx gy gz : ℚ) (tsu now : ℕ)
    (hact : st.logger_active = true) : (opl_write_accel st gx gy gz tsu now).1 = true := by
  unfold opl_write_accel
  rw [if_pos hact]
  dsimp only
  generalize (if tsu = 0 then now else tsu) = ts0
  have hr2 : (block_add_accel (freshBlock st.current_session) ts0 gx gy gz).1 = true := by
    rw [block_add_accel_ok _ _ _ _ _ (by show (0 : ℕ) + 4 + 12 ≤ OPL_MAX_DATA_PAYLOAD; decide)]
  split
  case isTrue => exact accel_flush_checks_fst _ gx gy gz now
  case isFalse => exact accel_flush_checks_fst _ gx gy gz now

theorem opl_write_gps_fst (st : OplState) (lat lon alt speed heading hdop : ℚ)
    (tsu now : ℕ) (hact : st.logger_active = true) :
    (opl_write_gps st lat lon alt speed heading hdop tsu now).1 = true := by
  unfold opl_write_gps
  rw [if_pos hact]
  dsimp only
  generalize (if tsu = 0 then now else tsu) = ts0
  have hr2 : (block_add_gps (freshBlock st.current_session) ts0 lat lon alt speed heading hdop).1
      = true := by
    rw [block_add_gps_ok _ _ _ _ _ _ _ _ (by show (0 : ℕ) + 4 + 32 ≤ OPL_MAX_DATA_PAYLOAD; decide)]
  split
  case isTrue => rfl
  case isFalse => rfl

/-! ## Claim C4 -/

/-- C4 (code evaluation at the failing input): a capacity overflow commits
the current block and retries the append, and the retried append succeeds —
the 112th GPS sample lands in the fresh block and no sample is lost
(111 + 2 + 0 samples accounted across two committed blocks and the current
one).  But the sequence number does *not* advance: `block_reset`'s `memset`
wipes the increment, so the second committed block carries
`block_sequence = 0` instead of 1. -/
theorem overflow_commit_sequence_reset_eval :
    ((oplRun c4ops).committed_blocks.map
        (fun b => (b.block_sequence, b.sample_count)) = [(0, 111), (0, 2)] ∧
     (oplRun c4ops).current_block.sample_count = 0 ∧
     (oplRun c4ops).current_block.block_sequence = 0 ∧
     (oplRun c4ops).logger_active = true) ∧
    (∀ (st : OplState) (gx gy gz : ℚ) (tsu now : ℕ), st.logger_active = true →
       (opl_write_accel st gx gy gz tsu now).1 = true) ∧
    (∀ (st : OplState) (lat lon alt speed heading hdop : ℚ) (tsu now : ℕ),
       st.logger_active = true →
       (opl_write_gps st lat lon alt speed heading hdop tsu now).1 = true) := by
  refine ⟨⟨by decide, by decide, by decide, by decide⟩, ?_, ?_⟩
  · intro st gx gy gz tsu now hact
    exact opl_write_accel_fst st gx gy gz tsu now hact
  · intro st lat lon alt speed heading hdop tsu now hact
    exact opl_write_gps_fst st lat lon alt speed heading hdop tsu now hact

/-- Witness for the universally quantified no-drop conjuncts of
`overflow_commit_sequence_reset_eval`, at the state right after a session
start. -/
theorem overflow_commit_sequence_reset_eval_witness :
    ((oplRun [startOp]).logger_active = true ∧
      (opl_write_accel (oplRun [startOp]) 10 0 0 2000000 2000000).1 = true) ∧
    (opl_write_gps (oplRun [startOp]) 40 (-74) 0 0 0 0 1000 1000).1 = true :=
  ⟨⟨by decide,
    (overflow_commit_sequence_reset_eval.2.1 (oplRun [startOp]) 10 0 0 2000000 2000000
      (by decide))⟩,
   (overflow_commit_sequence_reset_eval.2.2 (oplRun [startOp]) 40 (-74) 0 0 0 0 1000 1000
      (by decide))⟩

/-! ## Claim C9 -/

/-- C9 counterexample (negation of the claim): in *no* reachable execution
does a committed data block carry SIZE (bit 1) and EVENT (bit 2)
simultaneously — every site that sets a flush flag commits and resets the
block immediately, so the in-progress block always has `flush_flags = 0` and
each committed block carries at most one flag. -/
theorem size_event_flags_never_coexist :
    ¬ ∃ (ops : List OplOp) (b : OplBlock),
        b ∈ (oplRun ops).committed_blocks ∧
        b.flush_flags.testBit 1 = true ∧ b.flush_flags.testBit 2 = true := by
  rintro ⟨ops, b, hb, h1, h2⟩
  rcases (flagsInv_run ops).2 b hb with h | h | h | h
  · rw [h] at h1; exact absurd h1 (by decide)
  · rw [h] at h1; exact absurd h1 (by decide)
  · rw [h] at h2; exact absurd h2 (by decide)
  · rw [h] at h1; exact absurd h1 (by decide)

/-- C9 (amended): every committed block of every reachable execution carries
at most one flush flag — its flag byte is 0, TIME, SIZE or EVENT; in
particular SIZE and EVENT never co-occur. -/
theorem committed_block_single_flag (ops : List OplOp) (b : OplBlock)
    (hb : b ∈ (oplRun ops).committed_blocks) :
    (b.flush_flags = 0 ∨ b.flush_flags = FLUSH_FLAG_TIME ∨
     b.flush_flags = FLUSH_FLAG_SIZE ∨ b.flush_flags = FLUSH_FLAG_EVENT) ∧
    ¬ (b.flush_flags.testBit 1 = true ∧ b.flush_flags.testBit 2 = true) := by
  refine ⟨(flagsInv_run ops).2 b hb, ?_⟩
  rintro ⟨h1, h2⟩
  rcases (flagsInv_run ops).2 b hb with h | h | h | h
  · rw [h] at h1; exact absurd h1 (by decide)
  · rw [h] at h1; exact absurd h1 (by decide)
  · rw [h] at h2; exact absurd h2 (by decide)
  · rw [h] at h1; exact absurd h1 (by decide)

/-- Witness for `committed_block_single_flag` at the concrete one-EVENT-block
execution `c9ops`. -/
theorem committed_block_single_flag_witness :
    ((oplRun c9ops).committed_blocks.getD 0 block_reset ∈ (oplRun c9ops).committed_blocks) ∧
    ((((oplRun c9ops).committed_blocks.getD 0 block_reset).flush_flags = 0 ∨
      ((oplRun c9ops).committed_blocks.getD 0 block_reset).flush_flags = FLUSH_FLAG_TIME ∨
      ((oplRun c9ops).committed_blocks.getD 0 block_reset).flush_flags = FLUSH_FLAG_SIZE ∨
      ((oplRun c9ops).committed_blocks.getD 0 block_reset).flush_flags = FLUSH_FLAG_EVENT) ∧
     ¬ (((oplRun c9ops).committed_blocks.getD 0 block_reset).flush_flags.testBit 1 = true ∧
        ((oplRun c9ops).committed_blocks.getD 0 block_reset).flush_flags.testBit 2 = true)) :=
  ⟨by decide, committed_block_single_flag c9ops _ (by decide)⟩

/-! ## Claim C6 -/

theorem length_filter_lt_of_mem {α : Type} (p : α → Bool) (l : List α) (x : α)
    (hx : x ∈ l) (hp : p x = false) : (l.filter p).length < l.length := by
  rcases Nat.lt_or_ge (l.filter p).length l.length with h | h
  · exact h
  · exfalso
    have he : (l.filter p).length = l.length :=
      Nat.le_antisymm (List.length_filter_le p l) h
    have heq := List.Sublist.eq_of_length (List.filter_sublist l) he
    rw [← heq] at hx
    have hmem := (List.mem_filter.mp hx).2
    rw [hp] at hmem
    cases hmem

/-- Full behaviour of the `cleanupOldSessions` deletion loop, by induction on
the (sorted) pending list: the current session is never deleted, deletions
are oldest-first, the loop stops at the low-water mark, and the deletion
count reflects exactly whether any file disappeared. -/
theorem cleanupLoop_spec (pending : List SessionInfo) :
    ∀ (fs : FlashState) (count : ℕ),
    (∀ x ∈ pending, x ∈ fs.files) →
    (pending.map SessionInfo.filename).Nodup →
    pending.Pairwise (fun a b => a.created_time ≤ b.created_time) →
    (∀ f ∈ fs.files, ¬ f.filename = fs.current_session_ → f ∈ pending) →
    (fs.files.map SessionInfo.filename).Nodup →
    (fs.files.map SessionInfo.created_time).Nodup →
    (cleanupLoop pending fs count).2.current_session_ = fs.current_session_ ∧
    (∀ f ∈ (cleanupLoop pending fs count).2.files, f ∈ fs.files) ∧
    (∀ f ∈ fs.files, f.filename = fs.current_session_ →
       f ∈ (cleanupLoop pending fs count).2.files) ∧
    (∀ d ∈ fs.files, d ∉ (cleanupLoop pending fs count).2.files →
       ¬ d.filename = fs.current_session_ ∧
       ∀ x ∈ (cleanupLoop pending fs count).2.files,
         ¬ x.filename = fs.current_session_ → d.created_time < x.created_time) ∧
    (getUsagePercent (cleanupLoop pending fs count).2 ≤ LOW_WATER_MARK_PCT ∨
       ∀ x ∈ (cleanupLoop pending fs count).2.files, x.filename = fs.current_session_) ∧
    count ≤ (cleanupLoop pending fs count).1 ∧
    (count < (cleanupLoop pending fs count).1 ↔
       (cleanupLoop pending fs count).2.files.length < fs.files.length) ∧
    (cleanupLoop pending fs count).2.files.length ≤ fs.files.length ∧
    (getUsagePercent fs ≤ LOW_WATER_MARK_PCT → cleanupLoop pending fs count = (count, fs)) := by
  induction pending with
  | nil =>
    intro fs count hpend hnP hsort hnonact hnF htF
    refine ⟨rfl, fun f hf => hf, fun f hf _ => hf, ?_, ?_, le_refl _, ?_, le_refl _, fun _ => rfl⟩
    · intro d hd hnd; exact absurd hd hnd
    · right
      intro x hx
      by_contra hne
      exact absurd (hnonact x hx hne) (List.not_mem_nil x)
    · exact iff_of_false (lt_irrefl _) (lt_irrefl _)
  | cons s rest ih =>
    intro fs count hpend hnP hsort hnonact hnF htF
    have hs_mem : s ∈ fs.files := hpend s (List.mem_cons_self s rest)
    have hpend' : ∀ x ∈ rest, x ∈ fs.files := fun x hx => hpend x (List.mem_cons_of_mem s hx)
    have hnPc := hnP
    rw [List.map_cons, List.nodup_cons] at hnPc
    obtain ⟨hs_notin, hnP'⟩ := hnPc
    obtain ⟨hhead, hsort'⟩ := List.pairwise_cons.mp hsort
    by_cases hskip : s.filename = fs.current_session_
    · -- active session: skipped
      have hnonact' : ∀ f ∈ fs.files, ¬ f.filename = fs.current_session_ → f ∈ rest := by
        intro f hf hfne
        rcases List.mem_cons.mp (hnonact f hf hfne) with rfl | h
        · exact absurd hskip hfne
        · exact h
      have hstep : cleanupLoop (s :: rest) fs count = cleanupLoop rest fs count := by
        simp only [cleanupLoop, if_pos hskip]
      rw [hstep]
      exact ih fs count hpend' hnP' hsort' hnonact' hnF htF
    · by_cases husage : getUsagePercent fs ≤ LOW_WATER_MARK_PCT
      · -- break at the low-water mark
        have hstep : cleanupLoop (s :: rest) fs count = (count, fs) := by
          simp only [cleanupLoop, if_neg hskip, if_pos husage]
        rw [hstep]
        refine ⟨rfl, fun f hf => hf, fun f hf _ => hf, ?_, Or.inl husage, le_refl _, ?_,
                le_refl _, fun _ => rfl⟩
        · intro d hd hnd; exact absurd hd hnd
        · exact iff_of_false (lt_irrefl _) (lt_irrefl _)
      · -- delete the oldest pending non-active session
        have hany : fs.files.any (fun f => f.filename = s.filename) = true := by
          rw [List.any_eq_true]
          exact ⟨s, hs_mem, by simp⟩
        have hmem_fs' : ∀ x, x ∈ (deleteSessionFile fs s.filename).files ↔
            (x ∈ fs.files ∧ ¬ x.filename = s.filename) := by
          intro x
          simp [deleteSessionFile, List.mem_filter]
        have hsub' : (deleteSessionFile fs s.filename).files.Sublist fs.files :=
          List.filter_sublist fs.files
        have hpend'' : ∀ x ∈ rest, x ∈ (deleteSessionFile fs s.filename).files := by
          intro x hx
          rw [hmem_fs']
          refine ⟨hpend' x hx, fun hname => hs_notin ?_⟩
          rw [← hname]
          exact List.mem_map.mpr ⟨x, hx, rfl⟩
        have hnonact'' : ∀ f ∈ (deleteSessionFile fs s.filename).files,
            ¬ f.filename = (deleteSessionFile fs s.filename).current_session_ → f ∈ rest := by
          intro f hf hfne
          rw [hmem_fs'] at hf
          rcases List.mem_cons.mp (hnonact f hf.1 hfne) with rfl | h
          · exact absurd rfl hf.2
          · exact h
        have hnF' : ((deleteSessionFile fs s.filename).files.map SessionInfo.filename).Nodup :=
          List.Nodup.sublist (List.Sublist.map SessionInfo.filename hsub') hnF
        have htF' : ((deleteSessionFile fs s.filename).files.map SessionInfo.created_time).Nodup :=
          List.Nodup.sublist (List.Sublist.map SessionInfo.created_time hsub') htF
        have hlt : (deleteSessionFile fs s.filename).files.length < fs.files.length := by
          refine length_filter_lt_of_mem _ fs.files s hs_mem ?_
          simp
        obtain ⟨ihcs, ihsub, ihact, ihdel, ihstop, ihle, ihiff, ihlen, ihentry⟩ :=
          ih (deleteSessionFile fs s.filename) (count + 1) hpend'' hnP' hsort' hnonact'' hnF' htF'
        have hstep : cleanupLoop (s :: rest) fs count =
            cleanupLoop rest (deleteSessionFile fs s.filename) (count + 1) := by
          simp only [cleanupLoop, if_neg hskip, if_neg husage, if_pos hany]
        rw [hstep]
        refine ⟨ihcs, ?_, ?_, ?_, ?_, ?_, ?_, ?_, fun h => absurd h husage⟩
        · intro f hf
          exact ((hmem_fs' f).mp (ihsub f hf)).1
        · intro f hf hfname
          refine ihact f ?_ hfname
          rw [hmem_fs']
          exact ⟨hf, fun hname => hskip (hname ▸ hfname)⟩
        · intro d hd hnd
          by_cases hdname : d.filename = s.filename
          · have hds : d = s := List.inj_on_of_nodup_map hnF hd hs_mem hdname
            subst hds
            refine ⟨hskip, ?_⟩
            intro x hx hxne
            have hx' := ihsub x hx
            have hxrest : x ∈ rest := hnonact'' x hx' hxne
            have hle : d.created_time ≤ x.created_time := hhead x hxrest
            have hxd : ¬ x = d := by
              intro he
              exact ((hmem_fs' x).mp hx').2 (he ▸ rfl)
            have hx_files : x ∈ fs.files := ((hmem_fs' x).mp hx').1
            have hne : ¬ x.created_time = d.created_time := fun he =>
              hxd (List.inj_on_of_nodup_map htF hx_files hd he)
            exact Nat.lt_of_le_of_ne hle (fun he => hne he.symm)
          · have hd' : d ∈ (deleteSessionFile fs s.filename).files :=
              (hmem_fs' d).mpr ⟨hd, hdname⟩
            obtain ⟨h1, h2⟩ := ihdel d hd' hnd
            exact ⟨h1, h2⟩
        · rcases ihstop with h | h
          · exact Or.inl h
          · exact Or.inr h
        · exact le_trans (Nat.le_succ count) ihle
        · constructor
          · intro _
            exact lt_of_le_of_lt ihlen hlt
          · intro _
            exact lt_of_lt_of_le (Nat.lt_succ_self count) ihle
        · exact le_trans ihlen (le_of_lt hlt)

/-- C6: `cleanupOldSessions` (given pairwise-distinct filenames and
modification times) never deletes the currently active session file, deletes
strictly oldest-first (every deleted file is older than every surviving
non-active file), stops as soon as usage is at or below the low-water mark
(in particular it deletes nothing when usage is already acceptable, and on
return either usage is acceptable or only the active session remains), and
returns `true` iff at least one file was deleted. -/
theorem cleanup_old_sessions_spec (fs : FlashState)
    (hnames : (fs.files.map SessionInfo.filename).Nodup)
    (htimes : (fs.files.map SessionInfo.created_time).Nodup) :
    ((cleanupOldSessions fs).2.current_session_ = fs.current_session_) ∧
    (∀ f ∈ (cleanupOldSessions fs).2.files, f ∈ fs.files) ∧
    (∀ f ∈ fs.files, f.filename = fs.current_session_ → f ∈ (cleanupOldSessions fs).2.files) ∧
    (∀ d ∈ fs.files, d ∉ (cleanupOldSessions fs).2.files →
       ¬ d.filename = fs.current_session_ ∧
       ∀ x ∈ (cleanupOldSessions fs).2.files, ¬ x.filename = fs.current_session_ →
         d.created_time < x.created_time) ∧
    (getUsagePercent (cleanupOldSessions fs).2 ≤ LOW_WATER_MARK_PCT ∨
       ∀ x ∈ (cleanupOldSessions fs).2.files, x.filename = fs.current_session_) ∧
    ((cleanupOldSessions fs).1 = true ↔
       (cleanupOldSessions fs).2.files.length < fs.files.length) ∧
    (getUsagePercent fs ≤ LOW_WATER_MARK_PCT → cleanupOldSessions fs = (false, fs)) := by
  by_cases hemp : fs.files.isEmpty = true
  · have hfe : fs.files = [] := by
      cases hfiles : fs.files with
      | nil => rfl
      | cons a l => rw [hfiles] at hemp; cases hemp
    unfold cleanupOldSessions listSessions
    rw [if_pos hemp]
    refine ⟨rfl, fun f hf => hf, fun f hf _ => hf, ?_, ?_, ?_, fun _ => rfl⟩
    · intro d hd hnd; exact absurd hd hnd
    · right
      intro x hx
      rw [hfe] at hx
      exact absurd hx (List.not_mem_nil x)
    · exact iff_of_false Bool.false_ne_true (lt_irrefl _)
  · haveI : IsTotal SessionInfo (fun a b => a.created_time ≤ b.created_time) :=
      ⟨fun a b => Nat.le_total a.created_time b.created_time⟩
    haveI : IsTrans SessionInfo (fun a b => a.created_time ≤ b.created_time) :=
      ⟨fun a b c => Nat.le_trans⟩
    have hperm : List.Perm (sortSessions fs.files) fs.files := List.perm_insertionSort _ _
    have hpend : ∀ x ∈ sortSessions fs.files, x ∈ fs.files :=
      fun x hx => hperm.mem_iff.mp hx
    have hnonact : ∀ f ∈ fs.files, ¬ f.filename = fs.current_session_ →
        f ∈ sortSessions fs.files := fun f hf _ => hperm.mem_iff.mpr hf
    have hnP : ((sortSessions fs.files).map SessionInfo.filename).Nodup :=
      ((hperm.map SessionInfo.filename).nodup_iff).mpr hnames
    have hsorted : (sortSessions fs.files).Pairwise
        (fun a b => a.created_time ≤ b.created_time) :=
      List.sorted_insertionSort _ fs.files
    obtain ⟨hcs, hsub, hact, hdel, hstop, hle0, hiff, hlen, hentry⟩ :=
      cleanupLoop_spec (sortSessions fs.files) fs 0 hpend hnP hsorted hnonact hnames htimes
    unfold cleanupOldSessions listSessions
    rw [if_neg hemp]
    dsimp only
    refine ⟨hcs, hsub, hact, hdel, hstop, ?_, ?_⟩
    · rw [decide_eq_true_eq]
      exact hiff
    · intro h
      rw [hentry h]
      rfl

/-- Witness for `cleanup_old_sessions_spec` at the concrete retention
fixture `c6fs` (usage 100 %, three completed sessions plus the active one). -/
theorem cleanup_old_sessions_spec_witness :
    ((cleanupOldSessions c6fs).2.current_session_ = c6fs.current_session_) ∧
    (∀ f ∈ (cleanupOldSessions c6fs).2.files, f ∈ c6fs.files) ∧
    (∀ f ∈ c6fs.files, f.filename = c6fs.current_session_ →
       f ∈ (cleanupOldSessions c6fs).2.files) ∧
    (∀ d ∈ c6fs.files, d ∉ (cleanupOldSessions c6fs).2.files →
       ¬ d.filename = c6fs.current_session_ ∧
       ∀ x ∈ (cleanupOldSessions c6fs).2.files, ¬ x.filename = c6fs.current_session_ →
         d.created_time < x.created_time) ∧
    (getUsagePercent (cleanupOldSessions c6fs).2 ≤ LOW_WATER_MARK_PCT ∨
       ∀ x ∈ (cleanupOldSessions c6fs).2.files, x.filename = c6fs.current_session_) ∧
    ((cleanupOldSessions c6fs).1 = true ↔
       (cleanupOldSessions c6fs).2.files.length < c6fs.files.length) ∧
    (getUsagePercent c6fs ≤ LOW_WATER_MARK_PCT → cleanupOldSessions c6fs = (false, c6fs)) :=
  cleanup_old_sessions_spec c6fs (by decide) (by decide)

end OpenPyPony
